import Mathlib

/-!
Shallow embedding of the Open-Source Project Health Dashboard prototype
(src/finalUI.ts, the authoritative version of the data model, mock fetch
and comparison view).

Modelling conventions:
- TypeScript `number` fields holding possibly fractional values become `Rat`;
  fields that the source only ever fills with non-negative integers become `Nat`.
- `Math.random()` is modelled by an arbitrary stream `rng : Nat → Nat` of draws;
  `Math.floor(Math.random() * b)` at draw index `k` becomes `rng k % b`, which
  ranges over exactly the integers `0 ≤ x < b`, the image of the JS expression.
  The five weekly arrays consume draws in source evaluation order
  (commits first, then PR-opened, PR-merged, additions, deletions).
- `Date.now()` is modelled by a parameter `nowMs : Rat`.
- `weeks : number` is modelled as `Int`; `Array.from ({length: weeks}, ...)`
  clamps a non-positive length to an empty array (ECMAScript ToLength),
  modelled by `Int.toNat`.
- `console.log` output is collected as a list of emitted lines; the mutable
  global `comparisonState` is threaded explicitly through the state-passing
  variant of the fetch.
-/

namespace Dashboard

structure Contributor where
  user : String
  avatarUrl : String
  commits : Nat
  loc_changed : Nat
deriving DecidableEq, Repr

structure LanguageMetric where
  name : String
  percentage : Rat
  color : String
deriving DecidableEq, Repr

inductive Severity where
  | Low
  | Medium
  | High
deriving DecidableEq, Repr

structure IssuePrediction where
  avgTimeToFirstLabelHours : Rat
  severity : Severity
  nextWeekPredictedIssues : Nat
deriving DecidableEq, Repr

structure DoraMetrics where
  deploymentFrequency : String
  leadTimeForChangesHours : Rat
  timeToRestoreServiceHours : Rat
  changeFailureRate : String
deriving DecidableEq, Repr

structure TeamVelocity where
  currentSprintName : String
  totalStoryPoints : Nat
  completedStoryPoints : Nat
  sprintCompletionPercentage : Rat
deriving DecidableEq, Repr

structure ApiStatus where
  callsMade : Nat
  rateLimitRemaining : Nat
  rateLimitTotal : Nat
  resetTime : Rat
  isRateLimited : Bool
deriving DecidableEq, Repr

structure ProjectData where
  owner : String
  repo : String
  fullName : String
  description : String
  stars : Nat
  primaryLanguage : String
  avgPrMergeTimeDays : Rat
  weeklyCommits : List Nat
  weeklyPrOpened : List Nat
  weeklyPrMerged : List Nat
  weeklyAdditions : List Nat
  weeklyDeletions : List Nat
  languageBreakdown : List LanguageMetric
  triageScore : Nat
  issuePredictionModel : IssuePrediction
  doraMetrics : DoraMetrics
  teamVelocity : TeamVelocity
  apiStatus : ApiStatus
  contributors : List Contributor
deriving DecidableEq, Repr

/-- One weekly series: `Array.from ({length: len}, () => Math.floor(Math.random() * bound))`,
with draws taken from the stream `rng` starting at `offset`. -/
def mkWeekly (rng : Nat → Nat) (offset bound len : Nat) : List Nat :=
  (List.range len).map (fun i => rng (offset + i) % bound)

/-- The mock `fetchAllDataViaGraphQL` of src/finalUI.ts: the returned
`ProjectData` value (the promise always resolves; the log line is handled by
`fetchAllDataViaGraphQLRun`). -/
def fetchAllDataViaGraphQL (owner repo : String) (weeks : Int)
    (rng : Nat → Nat) (nowMs : Rat) : ProjectData :=
  let w : Nat := weeks.toNat
  { owner := owner
    repo := repo
    fullName := owner ++ "/" ++ repo
    description := "Real-time analysis via GitHub GraphQL. Now includes DORA and Team Velocity metrics."
    stars := 125345
    primaryLanguage := "TypeScript"
    avgPrMergeTimeDays := (3.5 : Rat)
    weeklyCommits := mkWeekly rng 0 500 w
    weeklyPrOpened := mkWeekly rng w 80 w
    weeklyPrMerged := mkWeekly rng (2 * w) 60 w
    weeklyAdditions := mkWeekly rng (3 * w) 5000 w
    weeklyDeletions := mkWeekly rng (4 * w) 2000 w
    languageBreakdown :=
      [ { name := "TypeScript", percentage := 70, color := "#3178C6" }
      , { name := "JavaScript", percentage := 20, color := "#F7DF1E" }
      , { name := "CSS", percentage := 10, color := "#563D7C" } ]
    triageScore := 85
    issuePredictionModel :=
      { avgTimeToFirstLabelHours := (4.2 : Rat)
        severity := Severity.Low
        nextWeekPredictedIssues := 35 }
    doraMetrics :=
      { deploymentFrequency := "3 times per day"
        leadTimeForChangesHours := (4.8 : Rat)
        timeToRestoreServiceHours := (0.5 : Rat)
        changeFailureRate := "5%" }
    teamVelocity :=
      { currentSprintName := "Q3 Feature Sprint 2"
        totalStoryPoints := 50
        completedStoryPoints := 35
        sprintCompletionPercentage := 70 }
    apiStatus :=
      { callsMade := 15
        rateLimitRemaining := 4985
        rateLimitTotal := 5000
        resetTime := nowMs / 1000 + 3600
        isRateLimited := false }
    contributors :=
      [ { user := "gql-master", avatarUrl := "...", commits := 950, loc_changed := 75000 }
      , { user := "api-architect", avatarUrl := "...", commits := 520, loc_changed := 45000 } ] }

/-- The comparison key union type
`'weeklyCommits' | 'avgPrMergeTimeDays' | 'triageScore' | 'doraMetrics'`. -/
inductive ComparisonKey where
  | weeklyCommits
  | avgPrMergeTimeDays
  | triageScore
  | doraMetrics
deriving DecidableEq, Repr

/-- The TypeScript field name a `ComparisonKey` value denotes. -/
def comparisonKeyName : ComparisonKey → String
  | ComparisonKey.weeklyCommits => "weeklyCommits"
  | ComparisonKey.avgPrMergeTimeDays => "avgPrMergeTimeDays"
  | ComparisonKey.triageScore => "triageScore"
  | ComparisonKey.doraMetrics => "doraMetrics"

/-- The field names of `interface ProjectData`, in declaration order. -/
def projectDataFields : List String :=
  [ "owner", "repo", "fullName", "description", "stars", "primaryLanguage"
  , "avgPrMergeTimeDays"
  , "weeklyCommits", "weeklyPrOpened", "weeklyPrMerged", "weeklyAdditions", "weeklyDeletions"
  , "languageBreakdown", "triageScore", "issuePredictionModel"
  , "doraMetrics", "teamVelocity", "apiStatus", "contributors" ]

/-- `keyof ProjectData`, the parameter type of `renderComparisonChart`. -/
inductive ProjectDataKey where
  | owner
  | repo
  | fullName
  | description
  | stars
  | primaryLanguage
  | avgPrMergeTimeDays
  | weeklyCommits
  | weeklyPrOpened
  | weeklyPrMerged
  | weeklyAdditions
  | weeklyDeletions
  | languageBreakdown
  | triageScore
  | issuePredictionModel
  | doraMetrics
  | teamVelocity
  | apiStatus
  | contributors
deriving DecidableEq, Repr

/-- The TypeScript field name a `ProjectDataKey` value denotes. -/
def projectDataKeyName : ProjectDataKey → String
  | ProjectDataKey.owner => "owner"
  | ProjectDataKey.repo => "repo"
  | ProjectDataKey.fullName => "fullName"
  | ProjectDataKey.description => "description"
  | ProjectDataKey.stars => "stars"
  | ProjectDataKey.primaryLanguage => "primaryLanguage"
  | ProjectDataKey.avgPrMergeTimeDays => "avgPrMergeTimeDays"
  | ProjectDataKey.weeklyCommits => "weeklyCommits"
  | ProjectDataKey.weeklyPrOpened => "weeklyPrOpened"
  | ProjectDataKey.weeklyPrMerged => "weeklyPrMerged"
  | ProjectDataKey.weeklyAdditions => "weeklyAdditions"
  | ProjectDataKey.weeklyDeletions => "weeklyDeletions"
  | ProjectDataKey.languageBreakdown => "languageBreakdown"
  | ProjectDataKey.triageScore => "triageScore"
  | ProjectDataKey.issuePredictionModel => "issuePredictionModel"
  | ProjectDataKey.doraMetrics => "doraMetrics"
  | ProjectDataKey.teamVelocity => "teamVelocity"
  | ProjectDataKey.apiStatus => "apiStatus"
  | ProjectDataKey.contributors => "contributors"

structure ComparisonState where
  repoA : Option ProjectData
  repoB : Option ProjectData
  comparisonKey : ComparisonKey
deriving DecidableEq, Repr

/-- The initial value of the global `const comparisonState`. -/
def comparisonState : ComparisonState :=
  { repoA := none, repoB := none, comparisonKey := ComparisonKey.weeklyCommits }

/-- `renderComparisonChart(key)` over an explicit comparison state; the result
is the list of emitted actions (here: the console lines the stub prints).
The source returns immediately, emitting nothing, unless both snapshots
are present. -/
def renderComparisonChart (st : ComparisonState) (key : ProjectDataKey) : List String :=
  if st.repoA.isNone || st.repoB.isNone then []
  else ["Rendering comparison chart for metric: " ++ projectDataKeyName key]

/-- The full effect of one call to `fetchAllDataViaGraphQL`: its value, the
global `comparisonState` after the call (the body contains no assignment to
it), and the console lines it emits. -/
def fetchAllDataViaGraphQLRun (owner repo : String) (weeks : Int)
    (rng : Nat → Nat) (nowMs : Rat) (st : ComparisonState) :
    ProjectData × ComparisonState × List String :=
  ( fetchAllDataViaGraphQL owner repo weeks rng nowMs
  , st
  , ["Executing GraphQL query for " ++ owner ++ "/" ++ repo ++ " over "
      ++ toString weeks ++ " weeks."] )

/-- Length of a weekly series is the requested length. -/
theorem mkWeekly_length (rng : Nat → Nat) (offset bound len : Nat) :
    (mkWeekly rng offset bound len).length = len := by
  simp [mkWeekly]

/-- Every element of a weekly series is below its bound (the bound is positive
for each of the five series). -/
theorem mkWeekly_all_lt (rng : Nat → Nat) (offset bound len : Nat) (hb : 0 < bound) :
    (mkWeekly rng offset bound len).all (fun x => decide (x < bound)) = true := by
  simp only [mkWeekly, List.all_eq_true, List.mem_map, List.mem_range]
  rintro b ⟨i, _, rfl⟩
  simpa using Nat.mod_lt _ hb

/-- C1: for every positive integer `weeks = w` and all strings `owner`, `repo`
(and every random stream and clock), the `ProjectData` returned by
`fetchAllDataViaGraphQL owner repo w` has all five weekly sequences of length
exactly `w`. -/
theorem fetch_weekly_lengths (owner repo : String) (w : Nat)
    (rng : Nat → Nat) (nowMs : Rat) (hw : 0 < w) :
    (fetchAllDataViaGraphQL owner repo (w : Int) rng nowMs).weeklyCommits.length = w
    ∧ (fetchAllDataViaGraphQL owner repo (w : Int) rng nowMs).weeklyPrOpened.length = w
    ∧ (fetchAllDataViaGraphQL owner repo (w : Int) rng nowMs).weeklyPrMerged.length = w
    ∧ (fetchAllDataViaGraphQL owner repo (w : Int) rng nowMs).weeklyAdditions.length = w
    ∧ (fetchAllDataViaGraphQL owner repo (w : Int) rng nowMs).weeklyDeletions.length = w := by
  refine ⟨?_, ?_, ?_, ?_, ?_⟩ <;>
    simp [fetchAllDataViaGraphQL, mkWeekly_length]

/-- Witness for C1 at `w = 3`. -/
theorem fetch_weekly_lengths_witness :
    0 < 3
    ∧ ((fetchAllDataViaGraphQL "a" "b" (3 : Nat) (fun _ => 0) 0).weeklyCommits.length = 3
    ∧ (fetchAllDataViaGraphQL "a" "b" (3 : Nat) (fun _ => 0) 0).weeklyPrOpened.length = 3
    ∧ (fetchAllDataViaGraphQL "a" "b" (3 : Nat) (fun _ => 0) 0).weeklyPrMerged.length = 3
    ∧ (fetchAllDataViaGraphQL "a" "b" (3 : Nat) (fun _ => 0) 0).weeklyAdditions.length = 3
    ∧ (fetchAllDataViaGraphQL "a" "b" (3 : Nat) (fun _ => 0) 0).weeklyDeletions.length = 3) :=
  ⟨by decide, fetch_weekly_lengths "a" "b" 3 (fun _ => 0) 0 (by decide)⟩

/-- C2: whenever `repoA` or `repoB` of the comparison state is null,
`renderComparisonChart key` emits no action (and, being total, raises no
error), for every key. -/
theorem renderComparisonChart_skips_when_missing (st : ComparisonState)
    (key : ProjectDataKey) (h : st.repoA = none ∨ st.repoB = none) :
    renderComparisonChart st key = [] := by
  rcases h with h | h <;> simp [renderComparisonChart, h]

/-- Witness for C2 at the initial global state (both snapshots null). -/
theorem renderComparisonChart_skips_when_missing_witness :
    (comparisonState.repoA = none ∨ comparisonState.repoB = none)
    ∧ renderComparisonChart comparisonState ProjectDataKey.weeklyCommits = [] :=
  ⟨Or.inl rfl,
    renderComparisonChart_skips_when_missing comparisonState
      ProjectDataKey.weeklyCommits (Or.inl rfl)⟩

/-- C3: `comparisonKey` ranges over the closed union type `ComparisonKey`,
every value of which names a field of `ProjectData`; thus no program
execution can store a non-field value in `comparisonKey`. -/
theorem comparisonKey_always_names_field (k : ComparisonKey) :
    comparisonKeyName k ∈ projectDataFields := by
  cases k <;> simp [comparisonKeyName, projectDataFields]

/-- C4: for every random stream and every input, each element of the weekly
sequences (all are natural numbers, hence non-negative) is strictly below its
per-series bound: commits < 500, PR-opened < 80, PR-merged < 60,
additions < 5000, deletions < 2000. -/
theorem fetch_weekly_bounds (owner repo : String) (weeks : Int)
    (rng : Nat → Nat) (nowMs : Rat) :
    ((fetchAllDataViaGraphQL owner repo weeks rng nowMs).weeklyCommits.all
      (fun x => decide (x < 500)) = true)
    ∧ ((fetchAllDataViaGraphQL owner repo weeks rng nowMs).weeklyPrOpened.all
      (fun x => decide (x < 80)) = true)
    ∧ ((fetchAllDataViaGraphQL owner repo weeks rng nowMs).weeklyPrMerged.all
      (fun x => decide (x < 60)) = true)
    ∧ ((fetchAllDataViaGraphQL owner repo weeks rng nowMs).weeklyAdditions.all
      (fun x => decide (x < 5000)) = true)
    ∧ ((fetchAllDataViaGraphQL owner repo weeks rng nowMs).weeklyDeletions.all
      (fun x => decide (x < 2000)) = true) := by
  refine ⟨?_, ?_, ?_, ?_, ?_⟩ <;>
    exact mkWeekly_all_lt _ _ _ _ (by norm_num)

/-- C5: `fullName` is always `owner ++ "/" ++ repo`; in particular
`fetch "octocat" "hello-world" 12` yields `fullName = "octocat/hello-world"`
and twelve weekly commit entries. -/
theorem fetch_fullName :
    (∀ (owner repo : String) (weeks : Int) (rng : Nat → Nat) (nowMs : Rat),
      (fetchAllDataViaGraphQL owner repo weeks rng nowMs).fullName = owner ++ "/" ++ repo)
    ∧ (fetchAllDataViaGraphQL "octocat" "hello-world" 12 (fun _ => 0) 0).fullName
        = "octocat/hello-world"
    ∧ (fetchAllDataViaGraphQL "octocat" "hello-world" 12 (fun _ => 0) 0).weeklyCommits.length
        = 12 := by
  refine ⟨fun owner repo weeks rng nowMs => rfl, rfl, ?_⟩
  simp [fetchAllDataViaGraphQL, mkWeekly_length]

/-- C6: in every produced `ProjectData`, `apiStatus.isRateLimited` is true iff
`apiStatus.rateLimitRemaining = 0` (the mock sets them to `false` and `4985`). -/
theorem fetch_isRateLimited_iff (owner repo : String) (weeks : Int)
    (rng : Nat → Nat) (nowMs : Rat) :
    ((fetchAllDataViaGraphQL owner repo weeks rng nowMs).apiStatus.isRateLimited = true
      ↔ (fetchAllDataViaGraphQL owner repo weeks rng nowMs).apiStatus.rateLimitRemaining = 0) := by
  simp [fetchAllDataViaGraphQL]

/-- C7: in every produced `ProjectData`,
`teamVelocity.completedStoryPoints ≤ teamVelocity.totalStoryPoints`
(the mock sets them to 35 and 50). -/
theorem fetch_velocity_le (owner repo : String) (weeks : Int)
    (rng : Nat → Nat) (nowMs : Rat) :
    (fetchAllDataViaGraphQL owner repo weeks rng nowMs).teamVelocity.completedStoryPoints
      ≤ (fetchAllDataViaGraphQL owner repo weeks rng nowMs).teamVelocity.totalStoryPoints := by
  simp [fetchAllDataViaGraphQL]

/-- C8: in every produced `ProjectData`, every element of `languageBreakdown`
has a percentage within [0, 100] (the mock uses 70, 20 and 10). -/
theorem fetch_language_percentages (owner repo : String) (weeks : Int)
    (rng : Nat → Nat) (nowMs : Rat) :
    (fetchAllDataViaGraphQL owner repo weeks rng nowMs).languageBreakdown.all
      (fun m => decide (0 ≤ m.percentage) && decide (m.percentage ≤ 100)) = true := by
  simp [fetchAllDataViaGraphQL]
  norm_num

/-- C9: a call to `fetchAllDataViaGraphQL` leaves the global `comparisonState`
unchanged: the state component of its full effect equals the incoming state,
for every input and every incoming state (the only effect besides the return
value is the diagnostic log line). -/
theorem fetchRun_preserves_comparisonState (owner repo : String) (weeks : Int)
    (rng : Nat → Nat) (nowMs : Rat) (st : ComparisonState) :
    (fetchAllDataViaGraphQLRun owner repo weeks rng nowMs st).2.1 = st := rfl

/-- C10: for every `weeks ≤ 0`, `fetchAllDataViaGraphQL` still returns a
`ProjectData` (it is total: no error, no failure value) whose five weekly
sequences are all empty. -/
theorem fetch_nonpositive_weeks (owner repo : String) (weeks : Int)
    (rng : Nat → Nat) (nowMs : Rat) (hw : weeks ≤ 0) :
    (fetchAllDataViaGraphQL owner repo weeks rng nowMs).weeklyCommits = []
    ∧ (fetchAllDataViaGraphQL owner repo weeks rng nowMs).weeklyPrOpened = []
    ∧ (fetchAllDataViaGraphQL owner repo weeks rng nowMs).weeklyPrMerged = []
    ∧ (fetchAllDataViaGraphQL owner repo weeks rng nowMs).weeklyAdditions = []
    ∧ (fetchAllDataViaGraphQL owner repo weeks rng nowMs).weeklyDeletions = [] := by
  have h0 : weeks.toNat = 0 := Int.toNat_of_nonpos hw
  refine ⟨?_, ?_, ?_, ?_, ?_⟩ <;>
    simp [fetchAllDataViaGraphQL, mkWeekly, h0]

/-- Witness for C10 at `weeks = -3`. -/
theorem fetch_nonpositive_weeks_witness :
    ((-3 : Int) ≤ 0)
    ∧ ((fetchAllDataViaGraphQL "a" "b" (-3) (fun _ => 0) 0).weeklyCommits = []
    ∧ (fetchAllDataViaGraphQL "a" "b" (-3) (fun _ => 0) 0).weeklyPrOpened = []
    ∧ (fetchAllDataViaGraphQL "a" "b" (-3) (fun _ => 0) 0).weeklyPrMerged = []
    ∧ (fetchAllDataViaGraphQL "a" "b" (-3) (fun _ => 0) 0).weeklyAdditions = []
    ∧ (fetchAllDataViaGraphQL "a" "b" (-3) (fun _ => 0) 0).weeklyDeletions = []) :=
  ⟨by decide, fetch_nonpositive_weeks "a" "b" (-3) (fun _ => 0) 0 (by decide)⟩

end Dashboard
